import Mathlib

/-!
Verification development for the SentinelAccessMap dashboard.

The embedding below translates the force-directed network graph component
(`src/components/NetworkGraph.tsx`), the application-level `speak` routine and
the chat send handler into Lean definitions.  Pure computations are Lean
functions over `String`, `Bool`, `ℚ` and lists; event handlers become explicit
state-passing functions; browser side effects (live-region updates, speech
synthesis calls, outgoing requests) are reified as record fields / lists of
emitted effects.  Parts of the layout physics live inside the external force
library, not in this repository; those are modelled from the specification and
are marked as such in their doc comments.
-/

/-- A network node record as supplied by the host application
(`src/services/mockData.ts`, interface in `types`).  The source field `type`
is called `ntype` here because `type` is a Lean keyword. -/
structure NetworkNodeRec where
  id : String
  label : String
  ntype : String
  status : String
  ip : String
deriving DecidableEq, Repr, Inhabited

/-- A network link record: endpoint ids plus a weight (`NetworkLink`). -/
structure NetworkLinkRec where
  source : String
  target : String
  value : ℚ
deriving DecidableEq, Repr, Inhabited

/-! ## Scene renderer: shapes (src/components/NetworkGraph.tsx lines 100-117) -/

/-- A drawable silhouette.  The source emits an SVG path string; the four
polygonal cases are closed polylines through the listed points and the
`workstation` case is an arc-based circle of the given radius, so the path is
represented structurally by its geometry. -/
inductive ShapePath where
  | poly (pts : List (ℚ × ℚ))
  | circle (radius : ℚ)
deriving DecidableEq, Repr

/-- `getNodePath` from the source: shape keyed by node category, base scale
`s = 22`; unknown categories fall through to the circle default. -/
def getNodePath (ntype : String) : ShapePath :=
  let s : ℚ := 22
  if ntype = "router" then
    ShapePath.poly [(0, -(s * 1.3)), (s * 1.3, 0), (0, s * 1.3), (-(s * 1.3), 0)]
  else if ntype = "firewall" then
    ShapePath.poly [(-s, -s), (s, -s), (s, s), (-s, s)]
  else if ntype = "database" then
    ShapePath.poly [(-(s * 0.6), -(s * 1.1)), (s * 0.6, -(s * 1.1)), (s * 1.1, 0),
      (s * 0.6, s * 1.1), (-(s * 0.6), s * 1.1), (-(s * 1.1), 0)]
  else if ntype = "server" then
    ShapePath.poly [(-(s * 0.8), -(s * 1.1)), (s * 0.8, -(s * 1.1)),
      (s * 0.8, s * 1.1), (-(s * 0.8), s * 1.1)]
  else
    ShapePath.circle s

/-- The diamond silhouette the spec assigns to routers (four points on the
axes), at the source's scale. -/
def diamondPath : ShapePath :=
  ShapePath.poly [(0, -28.6), (28.6, 0), (0, 28.6), (-28.6, 0)]

/-- The square silhouette the spec assigns to firewalls. -/
def squarePath : ShapePath :=
  ShapePath.poly [(-22, -22), (22, -22), (22, 22), (-22, 22)]

/-- The hexagon silhouette the spec assigns to databases. -/
def hexagonPath : ShapePath :=
  ShapePath.poly [(-13.2, -24.2), (13.2, -24.2), (24.2, 0),
    (13.2, 24.2), (-13.2, 24.2), (-24.2, 0)]

/-- The vertical rectangle silhouette the spec assigns to servers. -/
def rectanglePath : ShapePath :=
  ShapePath.poly [(-17.6, -24.2), (17.6, -24.2), (17.6, 24.2), (-17.6, 24.2)]

/-- The circle silhouette the spec assigns to workstations. -/
def circlePath : ShapePath :=
  ShapePath.circle 22

/-! ## Scene renderer: link line primitives (lines 50-58) -/

/-- A rendered line primitive with the stroke attributes set at creation. -/
structure LinePrimitive where
  sourceId : String
  targetId : String
  stroke : String
  strokeWidth : ℚ
  opacity : ℚ
deriving DecidableEq, Repr

/-- The link rendering pass from the source: one `line` element is data-joined
per element of `graphData.links`, with stroke attributes keyed only on the
high-contrast flag.  No link is filtered out and no diagnostic is emitted. -/
def renderLinkLines (highContrast : Bool) (links : List NetworkLinkRec) :
    List LinePrimitive :=
  links.map fun l =>
    { sourceId := l.source
      targetId := l.target
      stroke := if highContrast then "#ffffff" else "#475569"
      strokeWidth := if highContrast then 4 else 2
      opacity := if highContrast then 1 else 0.6 }

/-- The links handed to the force-link constructor (line 41): the source
passes `graphData.links` through unchanged, with no validity filtering. -/
def linksPassedToForce (links : List NetworkLinkRec) : List NetworkLinkRec :=
  links

/-! ## Effect lifecycle (lines 34-194) -/

/-- One created simulation instance: the identity of the cloned node array it
owns and whether its tick scheduling is still running. -/
structure SimInstance where
  dataRef : ℕ
  running : Bool
deriving DecidableEq, Repr

/-- One run of the component's `useEffect` body, as a transition on the list
of live simulation instances.  The body creates a fresh simulation over the
memoised node clones (which starts its tick scheduling immediately; spec §3:
the simulation "runs until energy decays below a threshold").  The effect
neither returns a cleanup function nor calls `stop()` on any existing
simulation, so every previously created instance is left in the list,
still running. -/
def mountGraphEffect (live : List SimInstance) (dataRef : ℕ) : List SimInstance :=
  live ++ [{ dataRef := dataRef, running := true }]

/-! ## Interaction controller: activation (lines 75-85, 166-175) -/

/-- The body shared by the click and keydown handlers: look the activated
datum's id up in the caller-supplied `nodes` prop and, when found, invoke
`onNodeClick` with the original record.  The emitted list collects the
callback invocations of one activation. -/
def activationEvents (nodes : List NetworkNodeRec) (clickedId : String) :
    List NetworkNodeRec :=
  match nodes.find? (fun n => n.id == clickedId) with
  | some n => [n]
  | none => []

/-- The keydown handler: only `Enter` and space activate; any other key does
nothing. -/
def keydownEvents (nodes : List NetworkNodeRec) (key : String)
    (clickedId : String) : List NetworkNodeRec :=
  if key == "Enter" || key == " " then activationEvents nodes clickedId else []

/-- The tick handler's output (lines 166-175): it re-positions primitives and
invokes no activation callback.  `transforms` is the list of node translate
positions it writes; `activations` collects `onNodeClick` invocations, of
which the tick handler performs none. -/
structure TickRenderOut where
  transforms : List (ℚ × ℚ)
  activations : List NetworkNodeRec
deriving DecidableEq, Repr

/-- The per-tick re-render: writes the current positions and fires nothing. -/
def tickRender (positions : List (ℚ × ℚ)) : TickRenderOut :=
  { transforms := positions, activations := [] }

/-- The click handler as a transition on the layout state: the body only
looks up the original record and invokes the callback, so the layout passes
through unchanged. -/
def clickHandler (layout : List (ℚ × ℚ)) (nodes : List NetworkNodeRec)
    (clickedId : String) : List (ℚ × ℚ) × List NetworkNodeRec :=
  (layout, activationEvents nodes clickedId)

/-- Fixture: the `fw-01` record of `src/services/mockData.ts`. -/
def fwNode : NetworkNodeRec :=
  { id := "fw-01", label := "Core Firewall", ntype := "firewall"
    status := "secure", ip := "192.168.1.1" }

/-- Fixture: the `db-prod-01` record of `src/services/mockData.ts`. -/
def dbProdNode : NetworkNodeRec :=
  { id := "db-prod-01", label := "Primary DB", ntype := "database"
    status := "critical", ip := "192.168.1.10" }

/-- Fixture: a two-node input list with distinct ids. -/
def fixtureNodes : List NetworkNodeRec :=
  [fwNode, dbProdNode]

/-- Fixture: a single-node set for the malformed-link scenario. -/
def soloNode : NetworkNodeRec :=
  { id := "a", label := "A", ntype := "server", status := "secure", ip := "10.0.0.1" }

/-- Fixture: a link whose target id matches no node in the set. -/
def danglingLink : NetworkLinkRec :=
  { source := "a", target := "ghost", value := 1 }

/-! ## Hybrid voice output `speak` (src/unnamed/part_001 lines 58-83) -/

/-- The observable effects of one `speak` call: the ARIA live-region update
(with its scheduled clearing), and the browser speech-synthesis calls. -/
structure SpeakEffect where
  announcementSet : Option String
  clearScheduled : Bool
  synthCancelCalled : Bool
  synthUtterances : List String
deriving DecidableEq, Repr

/-- `speak` from the source: in screen-reader mode only the live region is
updated (and scheduled to clear) and the function returns before any speech
synthesis; otherwise, with audio enabled, current speech is cancelled and the
text is synthesised; with both flags off nothing happens. -/
def speak (screenReaderMode audioEnabled : Bool) (text : String) : SpeakEffect :=
  if screenReaderMode then
    { announcementSet := some text
      clearScheduled := true
      synthCancelCalled := false
      synthUtterances := [] }
  else if audioEnabled then
    { announcementSet := none
      clearScheduled := false
      synthCancelCalled := true
      synthUtterances := [text] }
  else
    { announcementSet := none
      clearScheduled := false
      synthCancelCalled := false
      synthUtterances := [] }

/-! ## Chat send handler (src/unnamed/part_002 lines 29-70) -/

/-- A chat transcript message (`ChatMessage`); ids are `Date.now()`-derived
and modelled as naturals. -/
structure ChatMessageRec where
  msgId : ℕ
  isUser : Bool
  text : String
deriving DecidableEq, Repr

/-- The chat component state touched by `handleSend`. -/
structure ChatState where
  input : String
  loading : Bool
  messages : List ChatMessageRec
deriving DecidableEq, Repr

/-- Characters removed from both ends by the JavaScript `trim()` used in the
guard of `handleSend`. -/
def trimChars (cs : List Char) : List Char :=
  ((cs.dropWhile Char.isWhitespace).reverse.dropWhile Char.isWhitespace).reverse

/-- `String.prototype.trim`: drop leading and trailing whitespace. -/
def jsTrim (s : String) : String :=
  String.mk (trimChars s.data)

/-- `handleSend` from the source, run to completion: the guard
`if (!input.trim() || loading) return;` aborts with no state change and no
request; otherwise the input is cleared, the user message is appended, one
request carrying the user text is issued, and after the response arrives
(`respond` stands for the awaited backend call) the model message is appended
and loading ends.  The second component collects the issued request texts. -/
def handleSend (now : ℕ) (respond : String → String) (s : ChatState) :
    ChatState × List String :=
  if jsTrim s.input == "" || s.loading then
    (s, [])
  else
    let userText := s.input
    let userMsg : ChatMessageRec := { msgId := now, isUser := true, text := userText }
    let aiMsg : ChatMessageRec :=
      { msgId := now + 1, isUser := false, text := respond userText }
    ({ input := ""
       loading := false
       messages := s.messages ++ [userMsg, aiMsg] }, [userText])

/-! ## Layout physics: per-node tick and drag pinning

The integration step itself lives in the external force library, not under
`src/`.  It is modelled from the spec: §4.1 "apply ... forces, integrate
velocity into position, decay energy", §3 / glossary "Pin": a pinned node's
position is held at the pinned coordinates and it is excluded from force
integration.  The drag handlers are translated from the source
(lines 177-192). -/

/-- One simulated node: position, velocity, and the optional pinned
coordinates (`fx`/`fy` in the source; `none` when unpinned). -/
structure SimNode where
  x : ℚ
  y : ℚ
  vx : ℚ
  vy : ℚ
  fx : Option ℚ
  fy : Option ℚ
deriving DecidableEq, Repr

/-- Force accumulation of one tick for one node: the net force, scaled by the
current energy `alpha`, is added to the velocity. -/
def forcePass (alpha forceX forceY : ℚ) (n : SimNode) : SimNode :=
  { n with vx := n.vx + alpha * forceX, vy := n.vy + alpha * forceY }

/-- Velocity integration of one tick: an unpinned coordinate is damped and
added to the position; a pinned coordinate overrides the position and clears
the velocity. -/
def integratePass (damping : ℚ) (n : SimNode) : SimNode :=
  let nx :=
    match n.fx with
    | some px => { n with x := px, vx := 0 }
    | none => { n with x := n.x + n.vx * damping, vx := n.vx * damping }
  match nx.fy with
  | some py => { nx with y := py, vy := 0 }
  | none => { nx with y := nx.y + nx.vy * damping, vy := nx.vy * damping }

/-- One full simulation tick as seen by a single node. -/
def tickNode (damping alpha forceX forceY : ℚ) (n : SimNode) : SimNode :=
  integratePass damping (forcePass alpha forceX forceY n)

/-- `dragstarted` (source line 177): pin the node at its current position
(the energy of the simulation is simultaneously kept warm). -/
def dragstarted (n : SimNode) : SimNode :=
  { n with fx := some n.x, fy := some n.y }

/-- `dragged` (source line 183): move the pin to the pointer position. -/
def dragged (ex ey : ℚ) (n : SimNode) : SimNode :=
  { n with fx := some ex, fy := some ey }

/-- `dragended` (source line 188): release the pin; the position fields are
left untouched. -/
def dragended (n : SimNode) : SimNode :=
  { n with fx := none, fy := none }

/-! ## Pairwise repulsion with degenerate-geometry guard

Modelled from the spec: §4.1 "all nodes repel each other
(inverse-distance-squared-like repulsive force)" together with §7 "repulsion
must not divide by zero distance; a minimum-distance floor or a small random
jitter is required" — when the two nodes coincide, a small nonzero jitter
replaces the zero displacement before the distance is formed.  The
`forceManyBody` strength the component configures is `-500` (line 42). -/

/-- Division that reifies a division by zero as `none` (a NaN result in the
browser's arithmetic). -/
def safeDiv (a b : ℚ) : Option ℚ :=
  if b = 0 then none else some (a / b)

/-- The repulsion force exerted on the node at `p` by the node at `q`:
strength scaled by energy over squared distance, directed along the
(possibly jittered) displacement. -/
def repulsionForce (strength alpha jitterX jitterY : ℚ) (p q : ℚ × ℚ) :
    Option (ℚ × ℚ) :=
  let dx0 := q.1 - p.1
  let dy0 := q.2 - p.2
  let dx := if dx0 = 0 ∧ dy0 = 0 then jitterX else dx0
  let dy := if dx0 = 0 ∧ dy0 = 0 then jitterY else dy0
  match safeDiv (strength * alpha) (dx * dx + dy * dy) with
  | none => none
  | some w => some (dx * w, dy * w)

/-! ## Heap model for the prop arrays and their clones (lines 26-32)

`graphData` shallow-copies every node and link before anything is handed to
the force simulation or the renderer; only those copies are ever written.
Records live in a heap indexed by naturals: the caller's objects occupy
references `0, …, k-1` and the memoised clones occupy `k, …, 2k-1`. -/

/-- Overwrite the record at one reference. -/
def writeAt {α : Type} (heap : ℕ → α) (r : ℕ) (v : α) : ℕ → α :=
  fun r' => if r' = r then v else heap r'

/-- Apply a sequence of writes (the mutations performed by simulation ticks
and re-renders) to the heap. -/
def runWrites {α : Type} (heap : ℕ → α) (ws : List (ℕ × α)) : ℕ → α :=
  ws.foldl (fun h w => writeAt h w.1 w.2) heap

/-- The heap after `graphData` is built: `nodes.map(d => ({...d}))` — each of
the `k` caller records is copied into a fresh reference `k + i`. -/
def cloneHeap {α : Type} (heap : ℕ → α) (k : ℕ) : ℕ → α :=
  fun r => if k ≤ r ∧ r < 2 * k then heap (r - k) else heap r

/-- The references the simulation and renderer hold: exactly the clones
(the source hands `graphData.nodes` / `graphData.links` to the simulation and
to the data joins, never the props). -/
def cloneRefs (k : ℕ) : List ℕ :=
  (List.range k).map (fun i => i + k)

/-! ## Energy schedule (lines 40-48)

The alpha recurrence is the library's documented schedule, modelled from the
spec's energy description (§3: "current kinetic energy (decaying scalar
controlling settle speed)"; glossary "Settle threshold"): each tick the
energy moves toward its target (0 when not dragging) by the configured decay
fraction, and the simulation is settled once the energy falls below the fixed
minimum 1/1000.  The library's default decay rate is characterised by its
retention `1 - d` satisfying `(1 - d) ^ 300 = 1/1000`; the component overrides
the decay to `0.15` exactly when reduced motion is requested (lines 46-48). -/

/-- The energy after `n` ticks under decay rate `decay`
(`alpha += (alphaTarget - alpha) * alphaDecay` with target 0, starting at 1). -/
def alphaSeq {α : Type} [Field α] (decay : α) : ℕ → α
  | 0 => 1
  | n + 1 => alphaSeq decay n + (0 - alphaSeq decay n) * decay

/-- The simulation settles exactly at tick `n`: the energy first falls below
the 1/1000 threshold there. -/
def settlesAt {α : Type} [LinearOrderedField α] (decay : α) (n : ℕ) : Prop :=
  alphaSeq decay n < 1 / 1000 ∧ ∀ m, m < n → 1 / 1000 ≤ alphaSeq decay m

/-- The forces the component installs (lines 40-43): link distance 150,
many-body strength -500, centering at the viewport midpoint. -/
structure SimForces (α : Type) where
  linkDistance : α
  chargeStrength : α
  centerX : α
  centerY : α
deriving DecidableEq, Repr

/-- The component's force configuration; it does not depend on the
accessibility flags. -/
def simForces {α : Type} [Field α] (width height : α) : SimForces α :=
  { linkDistance := 150
    chargeStrength := -500
    centerX := width / 2
    centerY := height / 2 }

/-- The decay rate actually used: `0.15` when reduced motion is requested,
otherwise the library default (lines 45-48). -/
def alphaDecayOf {α : Type} [Field α] (defaultDecay : α) (reducedMotion : Bool) : α :=
  if reducedMotion then 15 / 100 else defaultDecay

/-- The whole simulation configuration assembled by the component. -/
structure SimConfig (α : Type) where
  forces : SimForces α
  alphaDecay : α
deriving DecidableEq, Repr

/-- The simulation configuration as a function of the props. -/
def networkGraphSimConfig {α : Type} [Field α] (defaultDecay width height : α)
    (reducedMotion : Bool) : SimConfig α :=
  { forces := simForces width height
    alphaDecay := alphaDecayOf defaultDecay reducedMotion }

/-! # Theorems -/

/-- Looking a member's id up with `find?` returns that member when the ids
are pairwise distinct. -/
theorem find_id_eq_of_mem (nodes : List NetworkNodeRec) (n : NetworkNodeRec)
    (hmem : n ∈ nodes) (hids : (nodes.map NetworkNodeRec.id).Nodup) :
    nodes.find? (fun m => m.id == n.id) = some n := by
  induction nodes with
  | nil => cases hmem
  | cons a tl ih =>
    rw [List.map_cons, List.nodup_cons] at hids
    rcases List.mem_cons.mp hmem with h | h
    · subst h
      simp [List.find?]
    · have hne : (a.id == n.id) = false := by
        rw [beq_eq_false_iff_ne]
        intro he
        exact hids.1 (he ▸ List.mem_map_of_mem NetworkNodeRec.id h)
      rw [List.find?_cons, hne]
      exact ih h hids.2

/-- C5: for every node of the input list (ids pairwise distinct), a pointer
click or a keyboard Enter / Space activation fires the selection callback
exactly once, carrying that node's full record from the input list; any other
key fires nothing, the click handler leaves the layout state unchanged, and
the per-tick re-render fires no activation at all. -/
theorem activation_fires_exactly_once (nodes : List NetworkNodeRec)
    (n : NetworkNodeRec) (layout : List (ℚ × ℚ)) (positions : List (ℚ × ℚ))
    (hmem : n ∈ nodes) (hids : (nodes.map NetworkNodeRec.id).Nodup) :
    activationEvents nodes n.id = [n]
    ∧ keydownEvents nodes "Enter" n.id = [n]
    ∧ keydownEvents nodes " " n.id = [n]
    ∧ (∀ key : String, key ≠ "Enter" → key ≠ " " →
        keydownEvents nodes key n.id = [])
    ∧ clickHandler layout nodes n.id = (layout, [n])
    ∧ (tickRender positions).activations = [] := by
  have hact : activationEvents nodes n.id = [n] := by
    rw [activationEvents, find_id_eq_of_mem nodes n hmem hids]
  refine ⟨hact, ?_, ?_, ?_, ?_, rfl⟩
  · rw [keydownEvents, if_pos (by decide), hact]
  · rw [keydownEvents, if_pos (by decide), hact]
  · intro key h1 h2
    have e1 : (key == "Enter") = false := beq_eq_false_iff_ne.mpr h1
    have e2 : (key == " ") = false := beq_eq_false_iff_ne.mpr h2
    rw [keydownEvents, e1, e2]
    rfl
  · rw [clickHandler, hact]

/-- Witness for C5 at the `db-prod-01` scenario of the spec. -/
theorem activation_fires_exactly_once_witness :
    (dbProdNode ∈ fixtureNodes ∧ (fixtureNodes.map NetworkNodeRec.id).Nodup)
    ∧ (activationEvents fixtureNodes dbProdNode.id = [dbProdNode]
      ∧ keydownEvents fixtureNodes "Enter" dbProdNode.id = [dbProdNode]
      ∧ keydownEvents fixtureNodes " " dbProdNode.id = [dbProdNode]
      ∧ (∀ key : String, key ≠ "Enter" → key ≠ " " →
          keydownEvents fixtureNodes key dbProdNode.id = [])
      ∧ clickHandler [] fixtureNodes dbProdNode.id = ([], [dbProdNode])
      ∧ (tickRender []).activations = []) :=
  ⟨⟨by decide, by decide⟩,
    activation_fires_exactly_once fixtureNodes dbProdNode [] []
      (by decide) (by decide)⟩

/-- C8: the shape function is total on the five categories and injective on
them — router, firewall, database, server and workstation map to the diamond,
square, hexagon, rectangle and circle silhouettes respectively, and those
five silhouettes are pairwise distinct. -/
theorem category_shape_injective :
    getNodePath "router" = diamondPath
    ∧ getNodePath "firewall" = squarePath
    ∧ getNodePath "database" = hexagonPath
    ∧ getNodePath "server" = rectanglePath
    ∧ getNodePath "workstation" = circlePath
    ∧ [diamondPath, squarePath, hexagonPath, rectanglePath, circlePath].Nodup := by
  refine ⟨?_, ?_, ?_, ?_, ?_, ?_⟩
  · simp only [getNodePath]
    norm_num [diamondPath]
  · simp only [getNodePath]
    rw [if_neg (by decide)]
    norm_num [squarePath]
  · simp only [getNodePath]
    rw [if_neg (by decide), if_neg (by decide)]
    norm_num [hexagonPath]
  · simp only [getNodePath]
    rw [if_neg (by decide), if_neg (by decide), if_neg (by decide)]
    norm_num [rectanglePath]
  · simp only [getNodePath]
    rw [if_neg (by decide), if_neg (by decide), if_neg (by decide),
      if_neg (by decide)]
    rfl
  · norm_num [diamondPath, squarePath, hexagonPath, rectanglePath, circlePath]
    simp

/-- C9: with screen-reader mode on, `speak` only updates the live region
(scheduling its clearing) and performs no speech synthesis regardless of the
audio flag; with both modes off it produces no output at all. -/
theorem speak_screen_reader_priority (text : String) (audioEnabled : Bool) :
    (speak true audioEnabled text).announcementSet = some text
    ∧ (speak true audioEnabled text).clearScheduled = true
    ∧ (speak true audioEnabled text).synthCancelCalled = false
    ∧ (speak true audioEnabled text).synthUtterances = []
    ∧ speak false false text =
        { announcementSet := none, clearScheduled := false
          synthCancelCalled := false, synthUtterances := [] } := by
  refine ⟨?_, ?_, ?_, ?_, ?_⟩ <;> rfl

/-- C10: a send attempt with a blank input or while a request is loading
leaves the whole chat state unchanged and issues no request. -/
theorem chat_send_guard (s : ChatState) (now : ℕ) (respond : String → String)
    (h : jsTrim s.input = "" ∨ s.loading = true) :
    handleSend now respond s = (s, []) := by
  have hg : (jsTrim s.input == "" || s.loading) = true := by
    rcases h with h | h
    · rw [h]
      simp
    · rw [h]
      simp
  rw [handleSend, if_pos hg]

/-- Witness for C10 on a whitespace-only input. -/
theorem chat_send_guard_witness :
    (jsTrim (" ") = "" ∨
      ({ input := " ", loading := false, messages := [] } : ChatState).loading = true)
    ∧ handleSend 0 (fun _ => "")
        { input := " ", loading := false, messages := [] }
      = ({ input := " ", loading := false, messages := [] }, []) :=
  ⟨Or.inl (by decide),
    chat_send_guard { input := " ", loading := false, messages := [] } 0
      (fun _ => "") (Or.inl (by decide))⟩

/-- C2 (code bug evaluated at the failing input): the target id of the
dangling link occurs in no node of the set, the component passes the link to
the force constructor unfiltered, and the render pass still produces a line
primitive for it — the claimed drop-with-diagnostic never happens. -/
theorem malformed_link_line_is_rendered :
    (([soloNode].map NetworkNodeRec.id).contains danglingLink.target) = false
    ∧ linksPassedToForce [danglingLink] = [danglingLink]
    ∧ renderLinkLines false [danglingLink] =
        [{ sourceId := "a", targetId := "ghost", stroke := "#475569"
           strokeWidth := 2, opacity := 0.6 }] := by
  refine ⟨by decide, rfl, ?_⟩
  norm_num [renderLinkLines, danglingLink]

/-- C3 (code bug evaluated at the failing input): re-running the setup effect
over the same memoised data (any dependency change that does not change
nodes/links, e.g. a viewport resize) leaves the previously created simulation
running: afterwards two running instances own the same cloned node array. -/
theorem effect_rerun_leaves_two_running_simulations :
    mountGraphEffect (mountGraphEffect [] 0) 0 =
      [{ dataRef := 0, running := true }, { dataRef := 0, running := true }] := by
  rfl

/-- A tick leaves a doubly pinned node exactly at its pinned coordinates with
zero velocity, keeping the pin. -/
theorem tickNode_pinned (damping alpha forceX forceY px py : ℚ) (n : SimNode)
    (hx : n.fx = some px) (hy : n.fy = some py) :
    tickNode damping alpha forceX forceY n =
      { x := px, y := py, vx := 0, vy := 0, fx := some px, fy := some py } := by
  simp [tickNode, forcePass, integratePass, hx, hy]

/-- Iterating ticks from a pinned node whose position already coincides with
its pin keeps position and pin fixed. -/
theorem tickNode_iter_pinned (damping alpha forceX forceY px py : ℚ) (k : ℕ)
    (n : SimNode) (hx : n.fx = some px) (hy : n.fy = some py)
    (hsx : n.x = px) (hsy : n.y = py) :
    ((tickNode damping alpha forceX forceY)^[k] n).x = px
    ∧ ((tickNode damping alpha forceX forceY)^[k] n).y = py
    ∧ ((tickNode damping alpha forceX forceY)^[k] n).fx = some px
    ∧ ((tickNode damping alpha forceX forceY)^[k] n).fy = some py := by
  induction k generalizing n with
  | zero => exact ⟨hsx, hsy, hx, hy⟩
  | succ j ih =>
    rw [Function.iterate_succ_apply]
    rw [tickNode_pinned damping alpha forceX forceY px py n hx hy]
    exact ih _ rfl rfl rfl rfl

/-- A tick moves an unpinned node by its damped, force-updated velocity. -/
theorem tickNode_unpinned (damping alpha forceX forceY : ℚ) (n : SimNode)
    (hx : n.fx = none) (hy : n.fy = none) :
    tickNode damping alpha forceX forceY n =
      { x := n.x + (n.vx + alpha * forceX) * damping
        y := n.y + (n.vy + alpha * forceY) * damping
        vx := (n.vx + alpha * forceX) * damping
        vy := (n.vy + alpha * forceY) * damping
        fx := none, fy := none } := by
  simp [tickNode, forcePass, integratePass, hx, hy]

/-- C1: pin semantics of dragging.  (a) Pointer-down pins a node at its
current position and any number of subsequent ticks leaves that position (and
the pin) unchanged.  (b) After pointer moves the pin, ticks hold the node at
the dragged position, and pointer-up clears the pin while keeping the last
dragged position — it is not reset.  (c) Once unpinned, a tick under a
nonzero net force with nonzero energy changes the node's position again. -/
theorem pin_drag_semantics (damping alpha forceX forceY ex ey : ℚ)
    (n m : SimNode) (k : ℕ)
    (hk : 1 ≤ k) (halpha : alpha ≠ 0) (hdamp : damping ≠ 0) (hfX : forceX ≠ 0)
    (hmfx : m.fx = none) (hmfy : m.fy = none) (hmvx : m.vx = 0) :
    (((tickNode damping alpha forceX forceY)^[k] (dragstarted n)).x = n.x
      ∧ ((tickNode damping alpha forceX forceY)^[k] (dragstarted n)).y = n.y
      ∧ ((tickNode damping alpha forceX forceY)^[k] (dragstarted n)).fx = some n.x
      ∧ ((tickNode damping alpha forceX forceY)^[k] (dragstarted n)).fy = some n.y)
    ∧ ((dragended ((tickNode damping alpha forceX forceY)^[k] (dragged ex ey n))).x = ex
      ∧ (dragended ((tickNode damping alpha forceX forceY)^[k] (dragged ex ey n))).y = ey
      ∧ (dragended ((tickNode damping alpha forceX forceY)^[k] (dragged ex ey n))).fx = none
      ∧ (dragended ((tickNode damping alpha forceX forceY)^[k] (dragged ex ey n))).fy = none)
    ∧ (tickNode damping alpha forceX forceY m).x ≠ m.x := by
  refine ⟨?_, ?_, ?_⟩
  · exact tickNode_iter_pinned damping alpha forceX forceY n.x n.y k
      (dragstarted n) rfl rfl rfl rfl
  · obtain ⟨j, rfl⟩ : ∃ j, k = j + 1 := ⟨k - 1, by omega⟩
    rw [Function.iterate_succ_apply]
    rw [tickNode_pinned damping alpha forceX forceY ex ey (dragged ex ey n) rfl rfl]
    obtain ⟨h1, h2, h3, h4⟩ := tickNode_iter_pinned damping alpha forceX forceY
      ex ey j { x := ex, y := ey, vx := 0, vy := 0, fx := some ex, fy := some ey }
      rfl rfl rfl rfl
    exact ⟨by rw [dragended]; exact h1, by rw [dragended]; exact h2, rfl, rfl⟩
  · rw [tickNode_unpinned damping alpha forceX forceY m hmfx hmfy, hmvx]
    intro hcontr
    have : (0 + alpha * forceX) * damping = 0 := by
      have := congrArg (fun z => z - m.x) hcontr
      simpa using this
    rcases mul_eq_zero.mp this with h | h
    · rw [zero_add] at h
      rcases mul_eq_zero.mp h with h1 | h1
      · exact halpha h1
      · exact hfX h1
    · exact hdamp h

/-- Witness for C1 at the spec's drag-to-(400,400) scenario. -/
theorem pin_drag_semantics_witness :
    ((1:ℕ) ≤ 1 ∧ (3/10 : ℚ) ≠ 0 ∧ (3/5 : ℚ) ≠ 0 ∧ (1 : ℚ) ≠ 0
      ∧ ({ x := 400, y := 400, vx := 0, vy := 0, fx := none, fy := none } : SimNode).fx = none
      ∧ ({ x := 400, y := 400, vx := 0, vy := 0, fx := none, fy := none } : SimNode).fy = none
      ∧ ({ x := 400, y := 400, vx := 0, vy := 0, fx := none, fy := none } : SimNode).vx = 0)
    ∧ ((((tickNode (3/5) (3/10) 1 0)^[1] (dragstarted { x := 100, y := 100, vx := 0, vy := 0, fx := none, fy := none })).x = ({ x := 100, y := 100, vx := 0, vy := 0, fx := none, fy := none } : SimNode).x
      ∧ ((tickNode (3/5) (3/10) 1 0)^[1] (dragstarted { x := 100, y := 100, vx := 0, vy := 0, fx := none, fy := none })).y = ({ x := 100, y := 100, vx := 0, vy := 0, fx := none, fy := none } : SimNode).y
      ∧ ((tickNode (3/5) (3/10) 1 0)^[1] (dragstarted { x := 100, y := 100, vx := 0, vy := 0, fx := none, fy := none })).fx = some ({ x := 100, y := 100, vx := 0, vy := 0, fx := none, fy := none } : SimNode).x
      ∧ ((tickNode (3/5) (3/10) 1 0)^[1] (dragstarted { x := 100, y := 100, vx := 0, vy := 0, fx := none, fy := none })).fy = some ({ x := 100, y := 100, vx := 0, vy := 0, fx := none, fy := none } : SimNode).y)
    ∧ ((dragended ((tickNode (3/5) (3/10) 1 0)^[1] (dragged 400 400 { x := 100, y := 100, vx := 0, vy := 0, fx := none, fy := none }))).x = 400
      ∧ (dragended ((tickNode (3/5) (3/10) 1 0)^[1] (dragged 400 400 { x := 100, y := 100, vx := 0, vy := 0, fx := none, fy := none }))).y = 400
      ∧ (dragended ((tickNode (3/5) (3/10) 1 0)^[1] (dragged 400 400 { x := 100, y := 100, vx := 0, vy := 0, fx := none, fy := none }))).fx = none
      ∧ (dragended ((tickNode (3/5) (3/10) 1 0)^[1] (dragged 400 400 { x := 100, y := 100, vx := 0, vy := 0, fx := none, fy := none }))).fy = none)
    ∧ (tickNode (3/5) (3/10) 1 0 { x := 400, y := 400, vx := 0, vy := 0, fx := none, fy := none }).x ≠ ({ x := 400, y := 400, vx := 0, vy := 0, fx := none, fy := none } : SimNode).x) :=
  ⟨⟨by norm_num, by norm_num, by norm_num, by norm_num, rfl, rfl, rfl⟩,
    pin_drag_semantics (3/5) (3/10) 1 0 400 400
      { x := 100, y := 100, vx := 0, vy := 0, fx := none, fy := none }
      { x := 400, y := 400, vx := 0, vy := 0, fx := none, fy := none } 1
      (by norm_num) (by norm_num) (by norm_num) (by norm_num) rfl rfl rfl⟩

/-- Writes that avoid a reference leave the heap unchanged there. -/
theorem runWrites_preserves {α : Type} (ws : List (ℕ × α)) (heap : ℕ → α)
    (r : ℕ) (h : ∀ w ∈ ws, w.1 ≠ r) :
    runWrites heap ws r = heap r := by
  induction ws generalizing heap with
  | nil => rfl
  | cons a tl ih =>
    have step : runWrites heap (a :: tl) = runWrites (writeAt heap a.1 a.2) tl := by
      simp [runWrites]
    rw [step, ih (writeAt heap a.1 a.2) (fun w hw => h w (List.mem_cons_of_mem a hw))]
    rw [writeAt, if_neg]
    intro he
    exact h a (List.mem_cons_self a tl) (he ▸ rfl)

/-- C6: the renderer and simulation never mutate the caller-supplied records.
The props occupy references `0, …, k-1`; `graphData` copies them into fresh
clone references, every write performed by ticks and re-renders targets a
clone reference, and afterwards every prop reference still holds exactly its
original record. -/
theorem render_never_mutates_props {α : Type} (heap : ℕ → α) (k : ℕ)
    (ws : List (ℕ × α)) (r : ℕ)
    (hw : ∀ w ∈ ws, w.1 ∈ cloneRefs k) (hr : r < k) :
    runWrites (cloneHeap heap k) ws r = heap r := by
  have h1 : ∀ w ∈ ws, w.1 ≠ r := by
    intro w hmem he
    rcases List.mem_map.mp (hw w hmem) with ⟨i, _, hival⟩
    omega
  rw [runWrites_preserves ws (cloneHeap heap k) r h1, cloneHeap, if_neg]
  intro hc
  omega

/-- Witness for C6: one prop record, one clone, one positional write to the
clone; the prop record is intact. -/
theorem render_never_mutates_props_witness :
    ((∀ w ∈ [((1:ℕ), dbProdNode)], w.1 ∈ cloneRefs 1) ∧ (0:ℕ) < 1)
    ∧ runWrites (cloneHeap (fun _ => soloNode) 1) [((1:ℕ), dbProdNode)] 0 = soloNode :=
  ⟨⟨by decide, by decide⟩,
    render_never_mutates_props (fun _ => soloNode) 1 [((1:ℕ), dbProdNode)] 0
      (by decide) (by decide)⟩

/-- C7: with a nonzero jitter configured, the repulsion force is defined for
every pair of positions — also for two nodes at the identical position — so
no division by a zero distance ever occurs and no undefined value can reach
a position update. -/
theorem repulsion_never_divides_by_zero (strength alpha jitterX jitterY : ℚ)
    (p q : ℚ × ℚ) (hj : jitterX ≠ 0 ∨ jitterY ≠ 0) :
    (repulsionForce strength alpha jitterX jitterY p q).isSome = true := by
  have key : ∀ dx dy : ℚ, (dx ≠ 0 ∨ dy ≠ 0) → dx * dx + dy * dy ≠ 0 := by
    intro dx dy hd
    have h1 : 0 ≤ dx * dx := mul_self_nonneg dx
    have h2 : 0 ≤ dy * dy := mul_self_nonneg dy
    rcases hd with hd | hd
    · have h3 : 0 < dx * dx := mul_self_pos.mpr hd
      exact ne_of_gt (by linarith)
    · have h3 : 0 < dy * dy := mul_self_pos.mpr hd
      exact ne_of_gt (by linarith)
  by_cases hc : q.1 - p.1 = 0 ∧ q.2 - p.2 = 0
  · have hne := key jitterX jitterY hj
    simp only [repulsionForce, safeDiv, if_pos hc, if_neg hne]
    rfl
  · have hd : q.1 - p.1 ≠ 0 ∨ q.2 - p.2 ≠ 0 := by
      by_contra hcon
      push_neg at hcon
      exact hc ⟨hcon.1, hcon.2⟩
    have hne := key (q.1 - p.1) (q.2 - p.2) hd
    simp only [repulsionForce, safeDiv, if_neg hc, if_neg hne]
    rfl

/-- Witness for C7: two coincident nodes at (100,100) with the source's
many-body strength `-500` and a tiny jitter still get a defined force. -/
theorem repulsion_never_divides_by_zero_witness :
    ((1/1000000 : ℚ) ≠ 0 ∨ (0 : ℚ) ≠ 0)
    ∧ (repulsionForce (-500) 1 (1/1000000) 0 (100, 100) (100, 100)).isSome = true :=
  ⟨Or.inl (by norm_num),
    repulsion_never_divides_by_zero (-500) 1 (1/1000000) 0 (100, 100) (100, 100)
      (Or.inl (by norm_num))⟩

/-- The energy recurrence has the closed form `(1 - d) ^ n`. -/
theorem alphaSeq_eq_pow {α : Type} [Field α] (d : α) (n : ℕ) :
    alphaSeq d n = (1 - d) ^ n := by
  induction n with
  | zero => simp [alphaSeq]
  | succ m ih =>
    rw [alphaSeq, ih, pow_succ]
    ring

/-- C4: with identical initial energy and the settle threshold 1/1000, the
reduced-motion configuration (decay 0.15) settles at a strictly earlier tick
than the default configuration (decay characterised by its retention
satisfying `(1 - dD) ^ 300 = 1/1000`), both configurations do settle, and the
accommodation changes only the decay rate: the installed forces (link
distance, charge strength, center) are identical in both modes. -/
theorem reduced_motion_settles_strictly_faster (dD : ℝ)
    (h0 : 0 < 1 - dD) (h300 : (1 - dD) ^ 300 = 1 / 1000) :
    (∃ nR, settlesAt (alphaDecayOf dD true) nR)
    ∧ (∃ nD, settlesAt (alphaDecayOf dD false) nD)
    ∧ (∀ nR nD, settlesAt (alphaDecayOf dD true) nR →
        settlesAt (alphaDecayOf dD false) nD → nR < nD)
    ∧ (∀ width height : ℝ,
        (networkGraphSimConfig dD width height true).forces
          = (networkGraphSimConfig dD width height false).forces
        ∧ (networkGraphSimConfig dD width height true).alphaDecay = 15 / 100
        ∧ (networkGraphSimConfig dD width height false).alphaDecay = dD) := by
  have hdec : alphaDecayOf dD true = (15 / 100 : ℝ) := rfl
  have hdecF : alphaDecayOf dD false = dD := rfl
  have hRpow : ∀ n : ℕ, alphaSeq ((15 : ℝ) / 100) n = (85 / 100 : ℝ) ^ n := by
    intro n
    rw [alphaSeq_eq_pow]
    norm_num
  have hDpow : ∀ n : ℕ, alphaSeq dD n = (1 - dD) ^ n := fun n => alphaSeq_eq_pow dD n
  have hrlt1 : (1 - dD) < 1 := by
    by_contra hcon
    push_neg at hcon
    have h1 : (1 : ℝ) ^ 300 ≤ (1 - dD) ^ 300 := pow_le_pow_left₀ (by norm_num) hcon 300
    rw [h300, one_pow] at h1
    norm_num at h1
  have h42 : (1 / 1000 : ℝ) ≤ (85 / 100 : ℝ) ^ 42 := by norm_num
  have h43 : (85 / 100 : ℝ) ^ 43 < 1 / 1000 := by norm_num
  have settlesR : settlesAt ((15 : ℝ) / 100) 43 := by
    constructor
    · rw [hRpow]
      exact h43
    · intro m hm
      rw [hRpow]
      have hle : (85 / 100 : ℝ) ^ 42 ≤ (85 / 100 : ℝ) ^ m :=
        pow_le_pow_of_le_one (by norm_num) (by norm_num) (by omega)
      linarith
  have hupto300 : ∀ m : ℕ, m ≤ 300 → (1 / 1000 : ℝ) ≤ (1 - dD) ^ m := by
    intro m hm
    have hmono := pow_le_pow_of_le_one h0.le hrlt1.le hm
    rw [h300] at hmono
    exact hmono
  have h301 : (1 - dD) ^ 301 < 1 / 1000 := by
    have hlt : (1 - dD) ^ 301 < (1 - dD) ^ 300 :=
      pow_lt_pow_right_of_lt_one₀ h0 hrlt1 (by omega)
    rw [h300] at hlt
    exact hlt
  have settlesD : settlesAt dD 301 := by
    constructor
    · rw [hDpow]
      exact h301
    · intro m hm
      rw [hDpow]
      exact hupto300 m (by omega)
  refine ⟨⟨43, by rw [hdec]; exact settlesR⟩, ⟨301, by rw [hdecF]; exact settlesD⟩, ?_, ?_⟩
  · intro nR nD hR hD
    rw [hdec] at hR
    rw [hdecF] at hD
    have hnR : nR = 43 := by
      rcases hR with ⟨hRlt, hRge⟩
      by_contra hne
      rcases Nat.lt_or_ge nR 43 with hlt | hge
      · have hle : (85 / 100 : ℝ) ^ 42 ≤ (85 / 100 : ℝ) ^ nR :=
          pow_le_pow_of_le_one (by norm_num) (by norm_num) (by omega)
        rw [hRpow] at hRlt
        linarith
      · have h43lt : 43 < nR := by omega
        have hcontr := hRge 43 h43lt
        rw [hRpow] at hcontr
        linarith
    subst hnR
    rcases hD with ⟨hDlt, _⟩
    by_contra hcon
    push_neg at hcon
    rw [hDpow] at hDlt
    have hge := hupto300 nD (by omega)
    linarith
  · intro w hh
    exact ⟨rfl, rfl, rfl⟩

/-- Witness for C4 at the library's default decay rate
`1 - (1/1000) ^ (1/300)`. -/
theorem reduced_motion_settles_strictly_faster_witness :
    (0 < 1 - (1 - ((1 : ℝ) / 1000) ^ ((300 : ℝ))⁻¹))
    ∧ ((1 - (1 - ((1 : ℝ) / 1000) ^ ((300 : ℝ))⁻¹)) ^ 300 = 1 / 1000)
    ∧ ((∃ nR, settlesAt (alphaDecayOf (1 - ((1 : ℝ) / 1000) ^ ((300 : ℝ))⁻¹) true) nR)
      ∧ (∃ nD, settlesAt (alphaDecayOf (1 - ((1 : ℝ) / 1000) ^ ((300 : ℝ))⁻¹) false) nD)
      ∧ (∀ nR nD,
          settlesAt (alphaDecayOf (1 - ((1 : ℝ) / 1000) ^ ((300 : ℝ))⁻¹) true) nR →
          settlesAt (alphaDecayOf (1 - ((1 : ℝ) / 1000) ^ ((300 : ℝ))⁻¹) false) nD →
          nR < nD)
      ∧ (∀ width height : ℝ,
          (networkGraphSimConfig (1 - ((1 : ℝ) / 1000) ^ ((300 : ℝ))⁻¹) width height true).forces
            = (networkGraphSimConfig (1 - ((1 : ℝ) / 1000) ^ ((300 : ℝ))⁻¹) width height false).forces
          ∧ (networkGraphSimConfig (1 - ((1 : ℝ) / 1000) ^ ((300 : ℝ))⁻¹) width height true).alphaDecay
              = 15 / 100
          ∧ (networkGraphSimConfig (1 - ((1 : ℝ) / 1000) ^ ((300 : ℝ))⁻¹) width height false).alphaDecay
              = 1 - ((1 : ℝ) / 1000) ^ ((300 : ℝ))⁻¹)) := by
  have hx : (0 : ℝ) ≤ 1 / 1000 := by norm_num
  have hpos : (0 : ℝ) < ((1 : ℝ) / 1000) ^ ((300 : ℝ))⁻¹ :=
    Real.rpow_pos_of_pos (by norm_num) _
  have hsub : (1 : ℝ) - (1 - ((1 : ℝ) / 1000) ^ ((300 : ℝ))⁻¹)
      = ((1 : ℝ) / 1000) ^ ((300 : ℝ))⁻¹ := by ring
  have hcast : ((300 : ℕ) : ℝ) = (300 : ℝ) := by norm_num
  have h300 : (1 - (1 - ((1 : ℝ) / 1000) ^ ((300 : ℝ))⁻¹)) ^ 300 = 1 / 1000 := by
    rw [hsub, ← hcast, Real.rpow_inv_natCast_pow hx (by norm_num)]
  have h0 : 0 < 1 - (1 - ((1 : ℝ) / 1000) ^ ((300 : ℝ))⁻¹) := by
    rw [hsub]
    exact hpos
  exact ⟨h0, h300, reduced_motion_settles_strictly_faster _ h0 h300⟩
